import Mathlib

/-!
Verification development for the Ubi-Device-Server flash volume manager.

The C++ sources (`src/ubi_device.cpp`, `src/ubi_device_server.cpp`,
`src/UbiDevice.h`) are shallowly embedded below: every member function that
the verified properties touch becomes a pure Lean function; the mutable
object state (`is_attached_`, the scan info `si`, the static guard counters
of `ConsecutiveBadBlocksCheck`) becomes explicit state passing; calls into
the native mtd/ubi libraries (`mtd_erase`, `mtd_write`, `ubi_mkvol`, ...)
become oracle fields of an environment record, and the sequence of native
flash operations a run performs is recorded in an explicit trace so that
"performs no erase/write" style properties are expressible.
-/

namespace UbiModel

/-- Error codes of `IUbiDevice::ErrorCode`, one constructor per enumerator
that `src/ubi_device.cpp` mentions (the enum's defining header is not in
the repository snapshot; the numeric values are irrelevant to the verified
properties, only distinctness matters). -/
inductive UbiErrorCode where
  | CREATE__MTD_TABLE_CREATE_FAILED_ERROR
  | CREATE__MTD_NAME_TO_NUM_NOT_FOUND_ERROR
  | CHECK_KERNEL_SUPPORT__CANNOT_GET_UBI_INFORMATION_ERROR
  | CHECK_KERNEL_SUPPORT__ATTACH_DETACH_FEATURE_IS_NOT_SUPPORTED
  | ATTACH__CANNOT_ATTACH_MTD_DEVICE
  | ATTACH__MTD_NUM_TO_UBI_ERROR
  | DETACH__CANNOT_DETACH_MTD_DEVICE_ERROR
  | OPEN_LIB_UBI__UBI_IS_NOT_PRESENT_IN_THE_SYSTEM
  | OPEN_LIB_UBI__CANNOT_OPEN_LIBUBI_ERROR
  | OPEN_LIB_MTD__MTD_IS_NOT_PRESENT_IN_THE_SYSTEM
  | OPEN_LIB_MTD__CANNOT_OPEN_LIBMTD_ERROR
  | CANNOT_OPEN_MTD_DEVICE_FILE_ERROR
  | UBI_PROBE_NODE_FAILED_ERROR
  | NOT_AN_UBI_DEVICE_NODE_ERROR
  | PROBE_NODE_ERROR
  | MAKE_VOLUME__UBI_GET_DEV_INFO_ERROR
  | MAKE_VOLUME__UBI_DEVICE_NOT_ENOUGH_FREE_LOGICAL_ERASEBLOCKS_ERROR
  | MAKE_VOLUME__GENERAL_ERROR
  | REMOVE_VOLUME__CANNOT_FIND_INFORMATION_ABOUT_UBI_DEVICE_ERROR
  | CANNOT_FIND_UBI_VOLUME_ERROR
  | REMOVE_VOLUME__GENERAL_ERROR
  | FORMAT__MTD_GET_INFO_FAILURE_ERROR
  | FORMAT__MTD_GET_DEV_INFO_FAILURE_ERROR
  | FORMAT__MIN_IO_SIZE_NOT_POWER_OF_2_ERROR
  | FORMAT__MTD_DEVICE_IS_A_READ_ONLY_DEVICE_ERROR
  | FORMAT__MTD_DEVICE_IS_ALREADY_ATTACHED_TO_UBI_DEVICE_ERROR
  | FORMAT__UBI_SCAN_FAILURE_ERROR
  | FORMAT__BAD_ERASEBLOCKS_AFTER_SCAN_ERROR
  | FORMAT__TOO_FEW_NON_BAD_ERASE_BLOCKS_AFTER_SCAN_ERROR
  | FORMAT__FAILED_TO_ERASE_ERASEBLOCK_ERROR
  | FORMAT__MARK_BAD_FAILED_ERROR
  | FORMAT__CANNOT_WRITE_EC_HEADER
  | FORMAT__NO_ERASEBLOCKS_FOR_VOLUME_TABLE_ERROR
  | FORMAT__UBIGEN_CREATE_EMPTY_VTBL_ERROR
  | FORMAT__CANNOT_WRITE_LAYOUT_VOLUME
  | FORMAT__BAD_BLOCK_NOT_SUPPORTED_BY_THIS_FLASH_ERROR
  | FORMAT__MTD_MARK_BAD_FAILED_ERROR
  | FORMAT__CONSECUTIVE_BAD_CHECK_ERROR
  | FORMAT__CONSECUTIVE_BAD_BLOCKS_EXCEED_LIMIT_ERROR
  | UPDATE_VOL__UBIFS_IMAGE_FILE_NOT_EXIST_ERROR
  | UPDATE_VOL__STAT_FAILED_ERROR
  | UPDATE_VOL__NO_SPACE_ERROR
  | UPDATE_VOL__LSEEK_ON_IMAGE_FD_FAILED_ERROR
  | UPDATE_VOL__CANNOT_CANNOT_START_VOLUME_ERROR
  | UPDATE_VOL__CANNOT_READ_FROM_UBIFS_IMAGE_FILE_ERROR
  | UPDATE_VOL__UBI_WRITE_FAILED_ERROR
  | UBI_WRITE_FAILED_ERROR
  | MOUNT_VOLUME__MOUNT_FAILED_ERROR
  | UNMOUNT_VOLUME__UMOUNT_FAILED_ERROR
  deriving DecidableEq, Repr

/-- Linux `EIO` errno value, as tested by `errno != EIO` in `FormatExec`. -/
def EIO : Nat := 5

/-- `kMaxConsecutiveBadBlocks` (ubi_device.cpp:52). -/
def kMaxConsecutiveBadBlocks : Nat := 4

/-- State of the two function-local `static` variables of
`UbiDevice::ConsecutiveBadBlocksCheck` (ubi_device.cpp:787-788):
`consecutive_bad_blocks` and `prev_bb`. -/
structure CbbState where
  consecutive : Nat
  prevBb : Int
  deriving DecidableEq, Repr

/-- The guard state at the start of a fresh process / format run:
`consecutive_bad_blocks = 1`, `prev_bb = -1`. -/
def cbbFresh : CbbState := { consecutive := 1, prevBb := -1 }

/-- `UbiDevice::ConsecutiveBadBlocksCheck` (ubi_device.cpp:784-810), the
static counters made explicit: returns the result together with the
updated counter state. -/
def ConsecutiveBadBlocksCheck (s : CbbState) (eb : Int) :
    Except UbiErrorCode Unit × CbbState :=
  let prev : Int := if s.prevBb = -1 then eb else s.prevBb
  let consec : Nat := if eb = prev + 1 then s.consecutive + 1 else 1
  let s' : CbbState := { consecutive := consec, prevBb := eb }
  if kMaxConsecutiveBadBlocks ≤ consec then
    (.error .FORMAT__CONSECUTIVE_BAD_BLOCKS_EXCEED_LIMIT_ERROR, s')
  else
    (.ok (), s')

/-- Run the guard over a list of marked-bad block indices in call order;
returns the index and code of the first call the guard rejects, or `none`
when every call succeeds. -/
def cbbRunErr (s : CbbState) : List Int → Option (Int × UbiErrorCode)
  | [] => none
  | eb :: rest =>
    match ConsecutiveBadBlocksCheck s eb with
    | (.error e, _) => some (eb, e)
    | (.ok _, s') => cbbRunErr s' rest

/-- Pairwise non-adjacency of marked indices (no two indices in the
sequence differ by one). -/
def PairwiseNonAdjacent (l : List Int) : Prop :=
  l.Pairwise (fun a b => b ≠ a + 1 ∧ a ≠ b + 1)

instance (l : List Int) : Decidable (PairwiseNonAdjacent l) := by
  unfold PairwiseNonAdjacent; infer_instance

/-- Entries of the scan info's per-block erase-counter table `si->ec[]`.
The mtd-utils scan library stores either a plain counter value, the
distinguished marker `EB_BAD` for a bad block, or one of the other
reserved markers above `EC_MAX` (`EB_EMPTY`, `EB_ALIEN`, `EB_CORRUPTED`);
those markers all fall into the `si->ec[eb] <= EC_MAX` else-branch of
`FormatExec`, so they are modelled by one constructor. `valid c` models a
counter with `si->ec[eb] <= EC_MAX`. -/
inductive ECEntry where
  | ebBad
  | valid (c : Nat)
  | aboveEcMax
  deriving DecidableEq, Repr

/-- `UbiDevice::FormatAttr` with its in-class initializers
(UbiDevice.h:179-187). -/
structure FormatAttr where
  override_ec : Nat := 0
  subpage_size : Int := 0
  vid_hdr_offs : Int := 0
  ubi_ver : Int := 1
  image_seq : Nat := 0
  ec : Int := 0
  node_fd : Int := 0
  deriving DecidableEq, Repr

/-- A native flash operation issued by the format path; runs accumulate
these in a trace.  `erase`, `writeHdr` and `torture` record every call of
`mtd_erase` / `mtd_write` / `mtd_torture` (successful or not); `markBad`
records a `mtd_mark_bad` call; `layoutWrite` records
`ubigen_write_layout_vol` with the block indices and erase counters passed
to it. -/
inductive FlashOp where
  | erase (eb : Nat)
  | writeHdr (eb : Nat)
  | torture (eb : Nat)
  | markBad (eb : Nat)
  | layoutWrite (eb1 : Nat) (ec1 : Int) (eb2 : Nat) (ec2 : Int)
  deriving DecidableEq, Repr

/-- Environment of one `FormatExec` run: the fixed flash geometry and the
outcome oracles of the native calls (the code observes each native call
only through its return value and `errno`, so a pure oracle per block is a
faithful embedding of one concrete execution). -/
structure FormatEnv where
  ebCnt : Nat
  minIoSize : Int
  bbAllowed : Bool
  eraseErrno : Nat → Option Nat
  writeErrno : Nat → Option Nat
  tortureFails : Nat → Bool
  markBadFails : Nat → Bool
  vtblOk : Bool
  layoutWriteOk : Bool

/-- Mutable state threaded through a `FormatExec` run: the scan info
fields the loop mutates (`si->ec[]`, `si->bad_cnt`), the static guard
counters, the volume-table reservations `eb1/ec1/eb2/ec2`, the trace of
native flash operations, and (as ghost instrumentation that affects no
control flow) the list `eraseOk` of successfully erased blocks paired
with the erase counter computed for them. -/
structure FormatState where
  ecTab : Nat → ECEntry
  badCnt : Nat
  cbb : CbbState
  eb1 : Option (Nat × Int) := none
  eb2 : Option (Nat × Int) := none
  trace : List FlashOp := []
  eraseOk : List (Nat × Int) := []

/-- The erase counter chosen for a block in the `FormatExec` loop
(ubi_device.cpp:657-663): the override value if the override flag is set,
else the scanned counter plus one when it is a plain value `<= EC_MAX`,
else the scan's mean counter. -/
def computeEc (attr : FormatAttr) (meanEc : Int) (e : ECEntry) : Int :=
  if attr.override_ec ≠ 0 then attr.ec
  else match e with
    | .valid c => (c : Int) + 1
    | _ => meanEc

/-- `UbiDevice::MarkBadBlocks` (ubi_device.cpp:752-782).  On an error the
state reached so far is returned alongside the code (the C++ mutations to
`si` and the static counters persist past the early return). -/
def MarkBadBlocks (env : FormatEnv) (s : FormatState) (eb : Nat) :
    Except (UbiErrorCode × FormatState) FormatState :=
  if env.bbAllowed = false then
    .error (.FORMAT__BAD_BLOCK_NOT_SUPPORTED_BY_THIS_FLASH_ERROR, s)
  else
    let s0 := { s with trace := s.trace ++ [.markBad eb] }
    if env.markBadFails eb then
      .error (.FORMAT__MTD_MARK_BAD_FAILED_ERROR, s0)
    else
      let s1 := { s0 with badCnt := s0.badCnt + 1,
                          ecTab := Function.update s0.ecTab eb .ebBad }
      match ConsecutiveBadBlocksCheck s1.cbb (eb : Int) with
      | (.error _, cbb') =>
          .error (.FORMAT__CONSECUTIVE_BAD_CHECK_ERROR, { s1 with cbb := cbb' })
      | (.ok _, cbb') => .ok { s1 with cbb := cbb' }

/-- One iteration of the `FormatExec` block loop (ubi_device.cpp:650-724)
for block `eb`. -/
def FormatExecStep (env : FormatEnv) (attr : FormatAttr) (meanEc : Int)
    (s : FormatState) (eb : Nat) :
    Except (UbiErrorCode × FormatState) FormatState :=
  if s.ecTab eb = .ebBad then .ok s
  else
    let ec := computeEc attr meanEc (s.ecTab eb)
    let sE := { s with trace := s.trace ++ [.erase eb] }
    match env.eraseErrno eb with
    | some e =>
        if e ≠ EIO then
          .error (.FORMAT__FAILED_TO_ERASE_ERASEBLOCK_ERROR, sE)
        else
          match MarkBadBlocks env sE eb with
          | .error (_, s') => .error (.FORMAT__MARK_BAD_FAILED_ERROR, s')
          | .ok s' => .ok s'
    | none =>
        let sO := { sE with eraseOk := sE.eraseOk ++ [(eb, ec)] }
        if sO.eb1 = none then .ok { sO with eb1 := some (eb, ec) }
        else if sO.eb2 = none then .ok { sO with eb2 := some (eb, ec) }
        else
          let sW := { sO with trace := sO.trace ++ [.writeHdr eb] }
          match env.writeErrno eb with
          | none => .ok sW
          | some e =>
              if e ≠ EIO ∧ attr.subpage_size ≠ env.minIoSize then
                .error (.FORMAT__CANNOT_WRITE_EC_HEADER, sW)
              else
                let sT := { sW with trace := sW.trace ++ [.torture eb] }
                if env.tortureFails eb then
                  match MarkBadBlocks env sT eb with
                  | .error (_, s') => .error (.FORMAT__MARK_BAD_FAILED_ERROR, s')
                  | .ok s' => .ok s'
                else .ok sT

/-- The `FormatExec` block loop over a list of block indices. -/
def FormatExecLoop (env : FormatEnv) (attr : FormatAttr) (meanEc : Int) :
    List Nat → FormatState → Except (UbiErrorCode × FormatState) FormatState
  | [], s => .ok s
  | eb :: rest, s =>
    match FormatExecStep env attr meanEc s eb with
    | .error e => .error e
    | .ok s' => FormatExecLoop env attr meanEc rest s'

/-- The state at the start of a `FormatExec` run: the scan's table and
bad count, the current guard counters, no reservations, empty traces. -/
def formatInitState (ecTab0 : Nat → ECEntry) (cbb0 : CbbState)
    (badCnt0 : Nat) : FormatState :=
  { ecTab := ecTab0, badCnt := badCnt0, cbb := cbb0 }

/-- List of the volume-table reservations held in `eb1`/`eb2` (block
index paired with the erase counter remembered for it). -/
def reservedPairs (s : FormatState) : List (Nat × Int) :=
  s.eb1.toList ++ s.eb2.toList

/-- `UbiDevice::FormatExec` (ubi_device.cpp:633-750): run the block loop
over blocks `start_eb .. eb_cnt - 1`, then require both volume-table
reservations, create the empty volume table and write the layout volume
with the reserved blocks and their counters. -/
def FormatExec (env : FormatEnv) (attr : FormatAttr) (meanEc : Int)
    (ecTab0 : Nat → ECEntry) (cbb0 : CbbState) (startEb badCnt0 : Nat) :
    Except (UbiErrorCode × FormatState) FormatState :=
  match FormatExecLoop env attr meanEc
      (List.range' startEb (env.ebCnt - startEb))
      (formatInitState ecTab0 cbb0 badCnt0) with
  | .error e => .error e
  | .ok s =>
    match s.eb1, s.eb2 with
    | some (e1, c1), some (e2, c2) =>
        if env.vtblOk = false then
          .error (.FORMAT__UBIGEN_CREATE_EMPTY_VTBL_ERROR, s)
        else
          let s' := { s with trace := s.trace ++ [.layoutWrite e1 c1 e2 c2] }
          if env.layoutWriteOk = false then
            .error (.FORMAT__CANNOT_WRITE_LAYOUT_VOLUME, s')
          else .ok s'
    | _, _ => .error (.FORMAT__NO_ERASEBLOCKS_FOR_VOLUME_TABLE_ERROR, s)

/-- The scan-info fields of `struct ubi_scan_info` that `Format` and
`FormatExec` read (counts, mean erase counter, per-block table). -/
structure ScanInfo where
  good_cnt : Nat
  bad_cnt : Nat
  ok_cnt : Nat
  empty_cnt : Nat
  alien_cnt : Nat
  mean_ec : Int
  ec : Nat → ECEntry

/-- The erase-counter override policy of `UbiDevice::Format`
(ubi_device.cpp:575-599), applied to the fresh `format_attr`.  The
source's second branch is an `else if` whose condition is literally the
same `percent < 50` as the first branch. -/
def formatEcPolicy (si : ScanInfo) (a : FormatAttr) : FormatAttr :=
  if si.empty_cnt < si.good_cnt then
    let percent : Nat := si.ok_cnt * 100 / si.good_cnt
    if percent < 50 then { a with ec := 0, override_ec := 1 }
    else if percent < 50 then { a with ec := si.mean_ec, override_ec := 1 }
    else a
  else a

/-- The guard of the dead `else if` branch of the erase-counter policy
(ubi_device.cpp:589): reached only when `percent < 50` already failed,
yet requiring `percent < 50` again. -/
def meanEcBranchTaken (si : ScanInfo) : Prop :=
  si.empty_cnt < si.good_cnt ∧
    ¬ si.ok_cnt * 100 / si.good_cnt < 50 ∧
    si.ok_cnt * 100 / si.good_cnt < 50

/-- `UbiDevice::Format` from the post-scan checks onward
(ubi_device.cpp:555-629): the good-block count checks, the erase-counter
policy, and the dispatch into `FormatExec` with `start_eb = 0` and the
scan's table and bad count.  The geometry computation
(`ubigen_info_init` and the VID-offset fixup, lines 601-620) affects
neither the control flow nor the flash-operation trace and is omitted.
The returned list is the trace of native flash operations performed. -/
def FormatAfterScan (env : FormatEnv) (si : ScanInfo) (cbb0 : CbbState) :
    Except UbiErrorCode Unit × List FlashOp :=
  if si.good_cnt = 0 then
    (.error .FORMAT__BAD_ERASEBLOCKS_AFTER_SCAN_ERROR, [])
  else if si.good_cnt < 2 then
    (.error .FORMAT__TOO_FEW_NON_BAD_ERASE_BLOCKS_AFTER_SCAN_ERROR, [])
  else
    let attr := formatEcPolicy si {}
    match FormatExec env attr si.mean_ec si.ec cbb0 0 si.bad_cnt with
    | .error (e, s) => (.error e, s.trace)
    | .ok s => (.ok (), s.trace)

/-- Run `MarkBadBlocks` over a list of block indices in call order;
returns the block index and code of the first failing call, or `none`
when every call succeeds. -/
def markBadRunErr (env : FormatEnv) :
    FormatState → List Nat → Option (Nat × UbiErrorCode)
  | _, [] => none
  | s, eb :: rest =>
    match MarkBadBlocks env s eb with
    | .error (e, _) => some (eb, e)
    | .ok s' => markBadRunErr env s' rest

/-- An environment in which every native mark-bad call succeeds and
bad-block marking is supported; only the guard can then fail a
`MarkBadBlocks` call. -/
def envMarkBadOk : FormatEnv where
  ebCnt := 64
  minIoSize := 2048
  bbAllowed := true
  eraseErrno := fun _ => none
  writeErrno := fun _ => none
  tortureFails := fun _ => false
  markBadFails := fun _ => false
  vtblOk := true
  layoutWriteOk := true

/-- A format-run state with fresh guard counters. -/
def stateFreshGuard : FormatState :=
  { ecTab := fun _ => .valid 0, badCnt := 0, cbb := cbbFresh }

/-- External operations `UpdateVolume` performs, in order: the two
`CreateCStyleFileHandle` opens, the `lseek` on the image fd, the
`ubi_update_start` call carrying the declared total length, and each
image-chunk read / volume-chunk write of the copy loop. -/
inductive UpdateOp where
  | openVolFd
  | openImageFd
  | lseekImage (skip : Nat)
  | updateStart (bytes : Int)
  | readChunk (r : Int)
  | writeChunk (n : Int)
  deriving DecidableEq, Repr

/-- Environment of one `UpdateVolume` call: the outcomes of its native
steps and the successive results of the copy loop's `read` calls paired
with whether the matching `UbiWrite` succeeds (`EINTR` retries, which the
code repeats transparently, are elided: each list entry is one completed
read). -/
structure UpdateEnv where
  fileExists : Bool
  ubiOpen : Option UbiErrorCode
  probeOk : Bool
  devInfoOk : Bool
  volInfoOk : Bool
  statOk : Bool
  fileSize : Int
  rsvdBytes : Int
  lebSize : Int
  volFdOk : Bool
  imageFdOk : Bool
  lseekOk : Bool
  updateStartOk : Bool
  chunks : List (Int × Bool)

/-- Result of an `UpdateVolume` call: outcome, trace of external
operations, and the total byte count written to the volume. -/
structure UpdateResult where
  result : Except UbiErrorCode Unit
  trace : List UpdateOp
  written : Int
  deriving Repr

/-- The `while (bytes)` copy loop of `UpdateVolume`
(ubi_device.cpp:947-975): read up to one logical erase block, treat a
non-positive read as fatal, write the chunk via `UbiWrite`, subtract the
read count from the remaining total.  `lebSize` only caps the per-read
request (`to_copy`); the bytes actually obtained are the oracle entries.
An exhausted oracle stands for a read that returns 0 (end of file), which
the code treats as fatal. -/
def updateTransferLoop (lebSize : Int) :
    List (Int × Bool) → Int → Except UbiErrorCode Unit × List UpdateOp × Int
  | [], bytes =>
    if bytes = 0 then (.ok (), [], 0)
    else (.error .UPDATE_VOL__CANNOT_READ_FROM_UBIFS_IMAGE_FILE_ERROR, [], 0)
  | (r, writeOk) :: rest, bytes =>
    if bytes = 0 then (.ok (), [], 0)
    else if r ≤ 0 then
      (.error .UPDATE_VOL__CANNOT_READ_FROM_UBIFS_IMAGE_FILE_ERROR,
        [.readChunk r], 0)
    else if writeOk = false then
      (.error .UPDATE_VOL__UBI_WRITE_FAILED_ERROR,
        [.readChunk r, .writeChunk r], 0)
    else
      let t := updateTransferLoop lebSize rest (bytes - r)
      (t.1, .readChunk r :: .writeChunk r :: t.2.1, r + t.2.2)

/-- `UpdateVolume` from the no-space check onward (ubi_device.cpp:893-975)
given the already computed transfer length `bytes`. -/
def UpdateVolumeFromBytes (env : UpdateEnv) (skipBytes : Nat) (bytes : Int) :
    UpdateResult :=
  if bytes > env.rsvdBytes then
    ⟨.error .UPDATE_VOL__NO_SPACE_ERROR, [], 0⟩
  else if env.volFdOk = false then
    ⟨.error .CANNOT_OPEN_MTD_DEVICE_FILE_ERROR, [.openVolFd], 0⟩
  else if env.imageFdOk = false then
    ⟨.error .CANNOT_OPEN_MTD_DEVICE_FILE_ERROR, [.openVolFd, .openImageFd], 0⟩
  else if 0 < skipBytes ∧ env.lseekOk = false then
    ⟨.error .UPDATE_VOL__LSEEK_ON_IMAGE_FD_FAILED_ERROR,
      [.openVolFd, .openImageFd, .lseekImage skipBytes], 0⟩
  else
    let tr1 := [UpdateOp.openVolFd, UpdateOp.openImageFd] ++
      (if 0 < skipBytes then [UpdateOp.lseekImage skipBytes] else [])
    if env.updateStartOk = false then
      ⟨.error .UPDATE_VOL__CANNOT_CANNOT_START_VOLUME_ERROR,
        tr1 ++ [.updateStart bytes], 0⟩
    else
      let t := updateTransferLoop env.lebSize env.chunks bytes
      ⟨t.1, tr1 ++ [.updateStart bytes] ++ t.2.1, t.2.2⟩

/-- The transfer length computed by `UpdateVolume`
(ubi_device.cpp:877-891): the explicit `size` argument when nonzero, else
`st.st_size - skip_bytes`.  In the C++ code `bytes` is a signed
`long long`, `st.st_size` a signed 64-bit `off_t`, and the `uint32_t`
`skip_bytes` converts to the signed 64-bit type before subtracting, so
the subtraction is plain integer arithmetic with no wrap-around,
matching `Int` here. -/
def computeTransferLength (size : Nat) (fileSize : Int) (skipBytes : Nat) :
    Int :=
  if 0 < size then (size : Int) else fileSize - (skipBytes : Int)

/-- `UbiDevice::UpdateVolume` (ubi_device.cpp:813-984): existence check,
library handle, probe, device and volume info, transfer-length
computation, then `UpdateVolumeFromBytes`. -/
def UpdateVolume (env : UpdateEnv) (skipBytes size : Nat) : UpdateResult :=
  if env.fileExists = false then
    ⟨.error .UPDATE_VOL__UBIFS_IMAGE_FILE_NOT_EXIST_ERROR, [], 0⟩
  else
    match env.ubiOpen with
    | some e => ⟨.error e, [], 0⟩
    | none =>
      if env.probeOk = false then
        ⟨.error .UBI_PROBE_NODE_FAILED_ERROR, [], 0⟩
      else if env.devInfoOk = false then
        ⟨.error .REMOVE_VOLUME__CANNOT_FIND_INFORMATION_ABOUT_UBI_DEVICE_ERROR,
          [], 0⟩
      else if env.volInfoOk = false then
        ⟨.error .CANNOT_FIND_UBI_VOLUME_ERROR, [], 0⟩
      else if 0 < size then
        UpdateVolumeFromBytes env skipBytes (size : Int)
      else if env.statOk = false then
        ⟨.error .UPDATE_VOL__STAT_FAILED_ERROR, [], 0⟩
      else
        UpdateVolumeFromBytes env skipBytes (env.fileSize - (skipBytes : Int))

/-- Volume id field of a `ubi_mkvol_request`; `auto` is
`UBI_VOL_NUM_AUTO`, the subsystem's marker for an auto-assigned id
(`kMakeVolDefaultVolId`, ubi_device.cpp:47). -/
inductive UbiVolId where
  | auto
  | num (n : Int)
  deriving DecidableEq, Repr

/-- Volume type field of a `ubi_mkvol_request`; `dynamic` is
`UBI_DYNAMIC_VOLUME` (`kMakeVolDefaultVolType`, ubi_device.cpp:49). -/
inductive UbiVolType where
  | dynamic
  | staticVol
  deriving DecidableEq, Repr

/-- The `ubi_mkvol_request` fields `MakeVolume` fills
(ubi_device.cpp:294-299). -/
structure MkvolRequest where
  vol_id : UbiVolId
  alignment : Int
  bytes : Int
  vol_type : UbiVolType
  name : String
  deriving DecidableEq, Repr

/-- Environment of one `MakeVolume` call: outcomes of the native steps
and the device's available bytes (`dev_info.avail_bytes`). -/
structure MakeVolEnv where
  ubiOpen : Option UbiErrorCode
  probeOk : Bool
  devInfoOk : Bool
  availBytes : Int
  mkvolOk : Bool

/-- Result of a `MakeVolume` call: outcome plus the `ubi_mkvol` requests
actually issued to the subsystem. -/
structure MakeVolResult where
  result : Except UbiErrorCode Unit
  mkvolCalls : List MkvolRequest
  deriving Repr

/-- `UbiDevice::MakeVolume` (ubi_device.cpp:251-310). -/
def MakeVolume (env : MakeVolEnv) (volName : String) (sizeInBytes : Nat) :
    MakeVolResult :=
  match env.ubiOpen with
  | some e => ⟨.error e, []⟩
  | none =>
    if env.probeOk = false then ⟨.error .UBI_PROBE_NODE_FAILED_ERROR, []⟩
    else if env.devInfoOk = false then
      ⟨.error .MAKE_VOLUME__UBI_GET_DEV_INFO_ERROR, []⟩
    else if env.availBytes = 0 then
      ⟨.error .MAKE_VOLUME__UBI_DEVICE_NOT_ENOUGH_FREE_LOGICAL_ERASEBLOCKS_ERROR,
        []⟩
    else
      let req : MkvolRequest :=
        { vol_id := .auto, alignment := 1,
          bytes := if sizeInBytes = 0 then env.availBytes else (sizeInBytes : Int),
          vol_type := .dynamic, name := volName }
      if env.mkvolOk = false then ⟨.error .MAKE_VOLUME__GENERAL_ERROR, [req]⟩
      else ⟨.ok (), [req]⟩

/-- The volume operations the thrift façade (`ubi_device_server.cpp`)
forwards to the held `IUbiDevice`. -/
inductive VolumeCall where
  | makeVolume (name : String) (sizeInBytes : Int)
  | removeVolume (name : String) (isToPrintLogError : Bool)
  | updateVolume (name imageFile : String) (skipBytes size : Int)
  | mountVolume (name dirToMount : String)
  | unmountVolume (dirToUnmount : String)
  deriving DecidableEq, Repr

/-- Reply of one server handler: normal return or a thrown
`UbiDeviceServerException` carrying the numeric error code. -/
inductive ServerReply where
  | ok
  | exception (errorCode : Int)
  deriving DecidableEq, Repr

/-- The common dispatch pattern of the five volume handlers of
`UbiDeviceServer` (ubi_device_server.cpp:50-116): if `ubi_device_` is
held, forward the call and translate a returned error into a thrown
exception with that code; otherwise log and throw
`UbiDeviceServerException(-1)` without touching any device.  The second
component lists the calls forwarded to the `IUbiDevice` (behind which
every native subsystem call happens); it is empty exactly when no device
work was performed. -/
def UbiDeviceServerDispatch (device : Option (VolumeCall → Except Int Unit))
    (call : VolumeCall) : ServerReply × List VolumeCall :=
  match device with
  | none => (.exception (-1), [])
  | some dev =>
    match dev call with
    | .ok _ => (.ok, [call])
    | .error e => (.exception e, [call])

/-- The `UbiDevice` object state the attach/detach lifecycle touches:
`is_attached_`, `mtd_num_`, `ubi_device_file_name_`
(UbiDevice.h:269-276). -/
structure DeviceState where
  isAttached : Bool
  mtdNum : Int
  ubiDeviceFileName : String
  deriving DecidableEq, Repr

/-- Environment of one `Detach` call: the library-open outcome, the
`ubi_get_info` outcome and reported `ctrl_major`, and the
`ubi_detach_mtd` outcome. -/
structure AttachDetachEnv where
  ubiOpen : Option UbiErrorCode
  ubiGetInfoOk : Bool
  ctrlMajor : Int
  detachOk : Bool

/-- `UbiDevice::CheckKernelSupportForAttachDetachRequest`
(ubi_device.cpp:138-159). -/
def CheckKernelSupportForAttachDetachRequest (env : AttachDetachEnv) :
    Except UbiErrorCode Unit :=
  if env.ubiGetInfoOk = false then
    .error .CHECK_KERNEL_SUPPORT__CANNOT_GET_UBI_INFORMATION_ERROR
  else if env.ctrlMajor = -1 then
    .error .CHECK_KERNEL_SUPPORT__ATTACH_DETACH_FEATURE_IS_NOT_SUPPORTED
  else .ok ()

/-- `UbiDevice::Detach` (ubi_device.cpp:215-248): acquire the library
handle, re-check kernel support (collapsing any check failure to the
feature-not-supported code, lines 234-236), issue `ubi_detach_mtd`, and
return.  The returned state is the object state after the call; the
source function never assigns `is_attached_`, so the state is returned
unchanged on every path. -/
def Detach (env : AttachDetachEnv) (d : DeviceState) :
    Except UbiErrorCode Unit × DeviceState :=
  match env.ubiOpen with
  | some e => (.error e, d)
  | none =>
    match CheckKernelSupportForAttachDetachRequest env with
    | .error _ =>
      (.error .CHECK_KERNEL_SUPPORT__ATTACH_DETACH_FEATURE_IS_NOT_SUPPORTED, d)
    | .ok _ =>
      if env.detachOk = false then
        (.error .DETACH__CANNOT_DETACH_MTD_DEVICE_ERROR, d)
      else (.ok (), d)

/-- Whether `~UbiDevice` (ubi_device.cpp:381-389) invokes `Detach()`:
it does exactly when `is_attached_` is still true. -/
def destructorCallsDetach (d : DeviceState) : Bool := d.isAttached

/-- An environment in which every native step of `Detach` succeeds. -/
def detachEnvOk : AttachDetachEnv :=
  { ubiOpen := none, ubiGetInfoOk := true, ctrlMajor := 0, detachOk := true }

/-- The state carried by a format-loop result, whether the run
succeeded or aborted with an error. -/
def resState : Except (UbiErrorCode × FormatState) FormatState → FormatState
  | .ok s => s
  | .error (_, s) => s

/-- Invariant maintained by the `FormatExec` block loop, for the state
entering block `lo`: the volume-table reservations are exactly the first
two successfully erased blocks (with the counters computed for them),
`eb1` fills before `eb2`, every successfully erased block lies below
`lo`, every written erase-counter header went to a block below `lo`,
after both reservation slots filled, and distinct from both reserved
blocks, and the loop itself never writes the layout volume. -/
def Inv (s : FormatState) (lo : Nat) : Prop :=
  reservedPairs s = s.eraseOk.take 2
  ∧ (s.eb1 = none → s.eb2 = none)
  ∧ (∀ p ∈ s.eraseOk, p.1 < lo)
  ∧ (∀ x, FlashOp.writeHdr x ∈ s.trace →
      x < lo ∧ s.eb2 ≠ none ∧ ∀ p ∈ s.eraseOk.take 2, p.1 ≠ x)
  ∧ (∀ a b c d, FlashOp.layoutWrite a b c d ∉ s.trace)

/-- Environment for the C5 witness: erasing any block fails with `EIO`
and the mark-bad path succeeds. -/
def envEioErase : FormatEnv where
  ebCnt := 1
  minIoSize := 2048
  bbAllowed := true
  eraseErrno := fun _ => some 5
  writeErrno := fun _ => none
  tortureFails := fun _ => false
  markBadFails := fun _ => false
  vtblOk := true
  layoutWriteOk := true

/-- Environment for the C4 witness: no blocks at all, so the loop
reserves nothing. -/
def envNoBlocks : FormatEnv where
  ebCnt := 0
  minIoSize := 2048
  bbAllowed := true
  eraseErrno := fun _ => none
  writeErrno := fun _ => none
  tortureFails := fun _ => false
  markBadFails := fun _ => false
  vtblOk := true
  layoutWriteOk := true

/-- A scan result in which all seven blocks are bad (`good_cnt = 0`). -/
def scanAllBad : ScanInfo :=
  { good_cnt := 0, bad_cnt := 7, ok_cnt := 0, empty_cnt := 0,
    alien_cnt := 0, mean_ec := 0, ec := fun _ => .ebBad }

/-- A scan result with exactly one good block. -/
def scanOneGood : ScanInfo :=
  { good_cnt := 1, bad_cnt := 6, ok_cnt := 1, empty_cnt := 0,
    alien_cnt := 0, mean_ec := 2, ec := fun _ => .valid 1 }

/-- A scan result triggering the erase-counter override: ten good
blocks, none empty, only one with a valid counter (10 percent). -/
def scanFewValidEc : ScanInfo :=
  { good_cnt := 10, bad_cnt := 0, ok_cnt := 1, empty_cnt := 0,
    alien_cnt := 0, mean_ec := 7, ec := fun _ => .valid 1 }

/-- Environment for the C6 witness: a 5-byte image, a roomy volume, and
a copy loop that reads 2 then 1 bytes. -/
def envUpdateSmall : UpdateEnv :=
  { fileExists := true, ubiOpen := none, probeOk := true, devInfoOk := true,
    volInfoOk := true, statOk := true, fileSize := 5, rsvdBytes := 100,
    lebSize := 2, volFdOk := true, imageFdOk := true, lseekOk := true,
    updateStartOk := true, chunks := [(2, true), (1, true)] }

/-- Environment for the C10 witness: a 4-byte image, all native steps
succeeding, and no readable data. -/
def envUpdateSkipPastEnd : UpdateEnv :=
  { fileExists := true, ubiOpen := none, probeOk := true, devInfoOk := true,
    volInfoOk := true, statOk := true, fileSize := 4, rsvdBytes := 100,
    lebSize := 2, volFdOk := true, imageFdOk := true, lseekOk := true,
    updateStartOk := true, chunks := [] }

/-- Environment for the C8 witness: an attached device with 4096
available bytes and every native step succeeding. -/
def envMakeVolOk : MakeVolEnv :=
  { ubiOpen := none, probeOk := true, devInfoOk := true,
    availBytes := 4096, mkvolOk := true }

lemma cbbRunErr_cons (s : CbbState) (eb : Int) (rest : List Int) :
    cbbRunErr s (eb :: rest) =
      match ConsecutiveBadBlocksCheck s eb with
      | (.error e, _) => some (eb, e)
      | (.ok _, s') => cbbRunErr s' rest := rfl

lemma ConsecutiveBadBlocksCheck_ok_of_not_adjacent (s : CbbState) (eb : Int)
    (h : s.prevBb ≠ -1 → eb ≠ s.prevBb + 1) :
    ConsecutiveBadBlocksCheck s eb =
      (.ok (), { consecutive := 1, prevBb := eb }) := by
  unfold ConsecutiveBadBlocksCheck
  by_cases hprev : s.prevBb = -1
  · have hne : ¬ (eb = eb + 1) := by omega
    simp [hprev, hne, kMaxConsecutiveBadBlocks]
  · have hne : ¬ (eb = s.prevBb + 1) := h hprev
    simp [hprev, hne, kMaxConsecutiveBadBlocks]

lemma cbbRunErr_of_chain (l : List Int) :
    ∀ s : CbbState,
      (∀ e, l.head? = some e → s.prevBb ≠ -1 → e ≠ s.prevBb + 1) →
      l.Chain' (fun a b => b ≠ a + 1) →
      cbbRunErr s l = none := by
  induction l with
  | nil => intro s _ _; rfl
  | cons eb rest ih =>
    intro s hhead hchain
    have hstep := ConsecutiveBadBlocksCheck_ok_of_not_adjacent s eb
      (hhead eb rfl)
    rw [cbbRunErr_cons, hstep]
    apply ih
    · intro e he hne
      cases rest with
      | nil => simp at he
      | cons r rs =>
        simp only [List.head?_cons, Option.some.injEq] at he
        subst he
        exact (List.chain'_cons.mp hchain).1
    · exact (List.chain'_cons'.mp hchain).2

lemma cbbRunErr_of_pairwiseNonAdjacent (l : List Int)
    (h : PairwiseNonAdjacent l) : cbbRunErr cbbFresh l = none := by
  apply cbbRunErr_of_chain
  · intro e _ habs
    exact absurd rfl habs
  · exact List.Pairwise.chain' (h.imp fun hp => hp.1)

/-- C1 (code_bug evidence): evaluating `Detach` in an environment where
every native step succeeds, on an attached device: the call returns
success, yet `is_attached_` is still true afterwards, so the destructor
(`~UbiDevice`) will invoke `Detach` a second time — the code never
executes the "mark unattached" step the specification describes. -/
theorem C1_detach_success_leaves_attached :
    (Detach detachEnvOk
      { isAttached := true, mtdNum := 3, ubiDeviceFileName := "/dev/ubi0" }).1
        = .ok ()
  ∧ (Detach detachEnvOk
      { isAttached := true, mtdNum := 3, ubiDeviceFileName := "/dev/ubi0" }).2.isAttached
        = true
  ∧ destructorCallsDetach (Detach detachEnvOk
      { isAttached := true, mtdNum := 3, ubiDeviceFileName := "/dev/ubi0" }).2
        = true :=
  ⟨rfl, rfl, rfl⟩

/-- C2: from fresh guard state, marking blocks 10, 11, 12 bad succeeds
(at the guard and at the `MarkBadBlocks` layer) and the call for block 13
is the first to fail — the guard returning the
consecutive-bad-blocks-exceed-limit code, which `MarkBadBlocks` surfaces
as its consecutive-bad-check failure; and a pairwise non-adjacent marking
sequence of any length never trips the guard. -/
theorem C2_consecutive_bad_blocks_guard :
    cbbRunErr cbbFresh [10, 11, 12] = none
  ∧ cbbRunErr cbbFresh [10, 11, 12, 13] =
      some (13, .FORMAT__CONSECUTIVE_BAD_BLOCKS_EXCEED_LIMIT_ERROR)
  ∧ markBadRunErr envMarkBadOk stateFreshGuard [10, 11, 12] = none
  ∧ markBadRunErr envMarkBadOk stateFreshGuard [10, 11, 12, 13] =
      some (13, .FORMAT__CONSECUTIVE_BAD_CHECK_ERROR)
  ∧ ∀ l : List Int, PairwiseNonAdjacent l → cbbRunErr cbbFresh l = none :=
  ⟨by decide, by decide, rfl, rfl, cbbRunErr_of_pairwiseNonAdjacent⟩

/-- Witness for C2's universally quantified part at the concrete
non-adjacent sequence 10, 12, 14. -/
theorem C2_consecutive_bad_blocks_guard_witness :
    cbbRunErr cbbFresh [10, 12, 14] = none :=
  C2_consecutive_bad_blocks_guard.2.2.2.2 [10, 12, 14] (by decide)

/-- C3 (counterexample): a scan reporting zero good blocks makes
`Format` return the all-eraseblocks-bad code, not the too-few-good-blocks
code the claim names for the `good_cnt = 0` case. -/
theorem C3_all_bad_returns_other_code :
    (FormatAfterScan envMarkBadOk scanAllBad cbbFresh).1 =
      .error .FORMAT__BAD_ERASEBLOCKS_AFTER_SCAN_ERROR
  ∧ UbiErrorCode.FORMAT__BAD_ERASEBLOCKS_AFTER_SCAN_ERROR ≠
      UbiErrorCode.FORMAT__TOO_FEW_NON_BAD_ERASE_BLOCKS_AFTER_SCAN_ERROR :=
  ⟨rfl, by decide⟩

/-- C3 (amended): a scan reporting fewer than two good blocks makes
`Format` fail before any flash operation — with the all-eraseblocks-bad
code when `good_cnt = 0` and the too-few-good-blocks code when
`good_cnt = 1` — and the trace of erase/write operations is empty. -/
theorem C3_too_few_good_blocks (env : FormatEnv) (si : ScanInfo)
    (cbb0 : CbbState) (h : si.good_cnt < 2) :
    (FormatAfterScan env si cbb0).1 =
      .error (if si.good_cnt = 0 then
          UbiErrorCode.FORMAT__BAD_ERASEBLOCKS_AFTER_SCAN_ERROR
        else UbiErrorCode.FORMAT__TOO_FEW_NON_BAD_ERASE_BLOCKS_AFTER_SCAN_ERROR)
  ∧ (FormatAfterScan env si cbb0).2 = [] := by
  unfold FormatAfterScan
  by_cases h0 : si.good_cnt = 0
  · simp [h0]
  · simp [h0, h]

/-- Witness for C3's amended theorem at the one-good-block scan. -/
theorem C3_too_few_good_blocks_witness :
    (FormatAfterScan envMarkBadOk scanOneGood cbbFresh).1 =
      .error .FORMAT__TOO_FEW_NON_BAD_ERASE_BLOCKS_AFTER_SCAN_ERROR
  ∧ (FormatAfterScan envMarkBadOk scanOneGood cbbFresh).2 = [] := by
  have h := C3_too_few_good_blocks envMarkBadOk scanOneGood cbbFresh
    (by norm_num [scanOneGood])
  simpa [scanOneGood] using h

/-- C7: every volume operation dispatched by the thrift façade against a
handle that was never initialized (no `IUbiDevice` held) is rejected
with the distinct code -1 and forwards nothing to the device, hence
performs no native subsystem call. -/
theorem C7_unattached_server_rejects_all (call : VolumeCall) :
    UbiDeviceServerDispatch none call = (.exception (-1), []) := rfl

/-- C8: `MakeVolume` on an attached device whose preliminary native
steps succeed: with zero available bytes it fails with the
not-enough-free-logical-eraseblocks code before issuing any `ubi_mkvol`;
otherwise it issues exactly one `ubi_mkvol` request with auto-assigned
volume id, alignment 1, dynamic type, and requested bytes equal to the
size argument when nonzero, else the device's available bytes. -/
theorem C8_make_volume_request (env : MakeVolEnv) (name : String)
    (size : Nat) (hopen : env.ubiOpen = none) (hprobe : env.probeOk = true)
    (hinfo : env.devInfoOk = true) :
    (env.availBytes = 0 →
      MakeVolume env name size =
        ⟨.error
          .MAKE_VOLUME__UBI_DEVICE_NOT_ENOUGH_FREE_LOGICAL_ERASEBLOCKS_ERROR,
          []⟩)
  ∧ (env.availBytes ≠ 0 →
      (MakeVolume env name size).mkvolCalls =
        [{ vol_id := .auto, alignment := 1,
           bytes := if size = 0 then env.availBytes else (size : Int),
           vol_type := .dynamic, name := name }]) := by
  constructor
  · intro h0
    simp [MakeVolume, hopen, hprobe, hinfo, h0]
  · intro hne
    by_cases hm : env.mkvolOk <;>
      simp [MakeVolume, hopen, hprobe, hinfo, hne, hm]

/-- Witness for C8 with 4096 available bytes and a zero size argument:
the issued request carries all available bytes. -/
theorem C8_make_volume_request_witness :
    (MakeVolume envMakeVolOk "rootfs" 0).mkvolCalls =
      [{ vol_id := .auto, alignment := 1, bytes := 4096,
         vol_type := .dynamic, name := "rootfs" }] := by
  have h := (C8_make_volume_request envMakeVolOk "rootfs" 0 rfl rfl rfl).2
    (by norm_num [envMakeVolOk])
  simpa [envMakeVolOk] using h

/-- C9: the erase-counter override policy of `Format`: whenever the
override flag comes out set (starting from the fresh `format_attr`), the
override counter value is 0; and the `else if` branch that would select
the scan's mean counter is unreachable for every scan result, its guard
being the same `percent < 50` its enclosing `else` just refuted. -/
theorem C9_ec_policy_dead_branch (si : ScanInfo) :
    ((formatEcPolicy si {}).override_ec ≠ 0 → (formatEcPolicy si {}).ec = 0)
  ∧ ¬ meanEcBranchTaken si := by
  constructor
  · intro hov
    unfold formatEcPolicy at hov ⊢
    by_cases h1 : si.empty_cnt < si.good_cnt
    · by_cases h2 : si.ok_cnt * 100 / si.good_cnt < 50
      · simp [h1, h2]
      · simp [h1, h2] at hov
    · simp [h1] at hov
  · rintro ⟨h1, h2, h3⟩
    exact h2 h3

/-- Witness for C9 at a scan with 10 good blocks of which one carries a
valid counter: the override triggers and the counter used is 0. -/
theorem C9_ec_policy_dead_branch_witness :
    (formatEcPolicy scanFewValidEc {}).ec = 0 :=
  (C9_ec_policy_dead_branch scanFewValidEc).1 (by decide)

lemma updateTransferLoop_ok_written (lebSize : Int) :
    ∀ (chunks : List (Int × Bool)) (bytes : Int),
      (updateTransferLoop lebSize chunks bytes).1 = .ok () →
      (updateTransferLoop lebSize chunks bytes).2.2 = bytes := by
  intro chunks
  induction chunks with
  | nil =>
    intro bytes h
    by_cases hb : bytes = 0
    · simp [updateTransferLoop, hb]
    · simp [updateTransferLoop, hb] at h
  | cons c rest ih =>
    intro bytes h
    obtain ⟨r, w⟩ := c
    by_cases hb : bytes = 0
    · simp [updateTransferLoop, hb]
    · by_cases hr : r ≤ 0
      · simp [updateTransferLoop, hb, hr] at h
      · by_cases hw : w = false
        · simp [updateTransferLoop, hb, hr, hw] at h
        · simp only [updateTransferLoop, if_neg hb, if_neg hr, if_neg hw] at h ⊢
          have := ih (bytes - r) h
          omega

lemma updateTransferLoop_no_updateStart (lebSize : Int) :
    ∀ (chunks : List (Int × Bool)) (bytes b : Int),
      UpdateOp.updateStart b ∉ (updateTransferLoop lebSize chunks bytes).2.1 := by
  intro chunks
  induction chunks with
  | nil =>
    intro bytes b
    by_cases hb : bytes = 0 <;> simp [updateTransferLoop, hb]
  | cons c rest ih =>
    intro bytes b
    obtain ⟨r, w⟩ := c
    by_cases hb : bytes = 0
    · simp [updateTransferLoop, hb]
    · by_cases hr : r ≤ 0
      · simp [updateTransferLoop, hb, hr]
      · by_cases hw : w = false
        · simp [updateTransferLoop, hb, hr, hw]
        · simp only [updateTransferLoop, if_neg hb, if_neg hr, if_neg hw]
          simp [ih (bytes - r) b]

lemma updateTransferLoop_ne_no_space (lebSize : Int) :
    ∀ (chunks : List (Int × Bool)) (bytes : Int),
      (updateTransferLoop lebSize chunks bytes).1 ≠
        .error .UPDATE_VOL__NO_SPACE_ERROR := by
  intro chunks
  induction chunks with
  | nil =>
    intro bytes
    by_cases hb : bytes = 0 <;> simp [updateTransferLoop, hb]
  | cons c rest ih =>
    intro bytes
    obtain ⟨r, w⟩ := c
    by_cases hb : bytes = 0
    · simp [updateTransferLoop, hb]
    · by_cases hr : r ≤ 0
      · simp [updateTransferLoop, hb, hr]
      · by_cases hw : w = false
        · simp [updateTransferLoop, hb, hr, hw]
        · simp only [updateTransferLoop, if_neg hb, if_neg hr, if_neg hw]
          exact ih (bytes - r)

lemma UpdateVolumeFromBytes_updateStart_val (env : UpdateEnv)
    (skipBytes : Nat) (bytes b : Int)
    (h : UpdateOp.updateStart b ∈ (UpdateVolumeFromBytes env skipBytes bytes).trace) :
    b = bytes := by
  have hno := updateTransferLoop_no_updateStart env.lebSize env.chunks bytes b
  unfold UpdateVolumeFromBytes at h
  by_cases h1 : bytes > env.rsvdBytes
  · simp [h1] at h
  · by_cases h2 : env.volFdOk = false
    · simp [h1, h2] at h
    · by_cases h3 : env.imageFdOk = false
      · simp [h1, h2, h3] at h
      · by_cases h4 : 0 < skipBytes ∧ env.lseekOk = false
        · simp [h1, h2, h3, h4] at h
        · by_cases h5 : env.updateStartOk = false
          · by_cases h6 : 0 < skipBytes
            · have hlk : ¬ env.lseekOk = false := fun hf => h4 ⟨h6, hf⟩
              simp [h1, h2, h3, h4, h5, h6, hlk] at h
              exact h
            · simp [h1, h2, h3, h4, h5, h6] at h
              exact h
          · by_cases h6 : 0 < skipBytes
            · have hlk : ¬ env.lseekOk = false := fun hf => h4 ⟨h6, hf⟩
              simp [h1, h2, h3, h4, h5, h6, hlk, hno] at h
              exact h
            · simp [h1, h2, h3, h4, h5, h6, hno] at h
              exact h

lemma UpdateVolumeFromBytes_no_space (env : UpdateEnv) (skipBytes : Nat)
    (bytes : Int) (h : bytes > env.rsvdBytes) :
    UpdateVolumeFromBytes env skipBytes bytes =
      ⟨.error .UPDATE_VOL__NO_SPACE_ERROR, [], 0⟩ := by
  simp [UpdateVolumeFromBytes, h]

lemma UpdateVolumeFromBytes_ok_written (env : UpdateEnv) (skipBytes : Nat)
    (bytes : Int)
    (h : (UpdateVolumeFromBytes env skipBytes bytes).result = .ok ()) :
    (UpdateVolumeFromBytes env skipBytes bytes).written = bytes := by
  unfold UpdateVolumeFromBytes at h ⊢
  by_cases h1 : bytes > env.rsvdBytes
  · simp [h1] at h
  · by_cases h2 : env.volFdOk = false
    · simp [h1, h2] at h
    · by_cases h3 : env.imageFdOk = false
      · simp [h1, h2, h3] at h
      · by_cases h4 : 0 < skipBytes ∧ env.lseekOk = false
        · simp [h1, h2, h3, h4] at h
        · by_cases h5 : env.updateStartOk = false
          · simp [h1, h2, h3, h4, h5] at h
          · simp only [h1, h2, h3, h4, h5] at h ⊢
            simp at h ⊢
            exact updateTransferLoop_ok_written env.lebSize env.chunks bytes h

lemma UpdateVolumeFromBytes_ne_no_space (env : UpdateEnv) (skipBytes : Nat)
    (bytes : Int) (h : ¬ bytes > env.rsvdBytes) :
    (UpdateVolumeFromBytes env skipBytes bytes).result ≠
      .error .UPDATE_VOL__NO_SPACE_ERROR := by
  unfold UpdateVolumeFromBytes
  by_cases h2 : env.volFdOk = false
  · simp [h, h2]
  · by_cases h3 : env.imageFdOk = false
    · simp [h, h2, h3]
    · by_cases h4 : 0 < skipBytes ∧ env.lseekOk = false
      · simp [h, h2, h3, h4]
      · by_cases h5 : env.updateStartOk = false
        · simp [h, h2, h3, h4, h5]
        · simp only [h, h2, h3, h4, h5]
          simp
          exact updateTransferLoop_ne_no_space env.lebSize env.chunks bytes

lemma UpdateVolumeFromBytes_updateStart_mem (env : UpdateEnv)
    (skipBytes : Nat) (bytes : Int) (h : ¬ bytes > env.rsvdBytes)
    (hvfd : env.volFdOk = true) (hifd : env.imageFdOk = true)
    (hlseek : env.lseekOk = true) (hstart : env.updateStartOk = true) :
    UpdateOp.updateStart bytes ∈
      (UpdateVolumeFromBytes env skipBytes bytes).trace := by
  simp [UpdateVolumeFromBytes, h, hvfd, hifd, hlseek, hstart]

lemma UpdateVolume_eq_fromBytes (env : UpdateEnv) (skipBytes size : Nat)
    (hex : env.fileExists = true) (hopen : env.ubiOpen = none)
    (hprobe : env.probeOk = true) (hdev : env.devInfoOk = true)
    (hvol : env.volInfoOk = true) (hstat : env.statOk = true) :
    UpdateVolume env skipBytes size =
      UpdateVolumeFromBytes env skipBytes
        (computeTransferLength size env.fileSize skipBytes) := by
  unfold UpdateVolume computeTransferLength
  rw [hopen]
  by_cases hs : 0 < size <;>
    simp [hex, hprobe, hdev, hvol, hstat, hs]

/-- C6: `UpdateVolume` with all preliminary native steps succeeding:
(a) any volume-update-start it issues declares exactly the computed
transfer length — the explicit `size` argument when nonzero, else
`fileSize - skipBytes`; (b) when that computed length exceeds the
volume's reserved bytes the call fails with the no-space code with an
empty external-operation trace, in particular before opening either the
volume or the image file descriptor; (c) in the `size = 0`,
`skipBytes > 0` case, a successful call writes exactly
`fileSize - skipBytes` bytes to the volume. -/
theorem C6_update_volume_transfer_length (env : UpdateEnv)
    (skipBytes size : Nat)
    (hex : env.fileExists = true) (hopen : env.ubiOpen = none)
    (hprobe : env.probeOk = true) (hdev : env.devInfoOk = true)
    (hvol : env.volInfoOk = true) (hstat : env.statOk = true) :
    (∀ b : Int,
      UpdateOp.updateStart b ∈ (UpdateVolume env skipBytes size).trace →
        b = computeTransferLength size env.fileSize skipBytes)
  ∧ (computeTransferLength size env.fileSize skipBytes > env.rsvdBytes →
      (UpdateVolume env skipBytes size).result =
        .error .UPDATE_VOL__NO_SPACE_ERROR
      ∧ (UpdateVolume env skipBytes size).trace = [])
  ∧ (size = 0 → 0 < skipBytes →
      (UpdateVolume env skipBytes size).result = .ok () →
      (UpdateVolume env skipBytes size).written =
        env.fileSize - (skipBytes : Int)) := by
  rw [UpdateVolume_eq_fromBytes env skipBytes size hex hopen hprobe hdev hvol
    hstat]
  refine ⟨?_, ?_, ?_⟩
  · intro b hb
    exact UpdateVolumeFromBytes_updateStart_val env skipBytes _ b hb
  · intro hgt
    rw [UpdateVolumeFromBytes_no_space env skipBytes _ hgt]
    exact ⟨rfl, rfl⟩
  · intro hsz _ hok
    have h := UpdateVolumeFromBytes_ok_written env skipBytes _ hok
    rw [h]
    simp [computeTransferLength, hsz]

/-- Witness for C6 at a 5-byte image with `skipBytes = 2`, `size = 0`:
the successful call writes exactly 3 bytes. -/
theorem C6_update_volume_transfer_length_witness :
    (UpdateVolume envUpdateSmall 2 0).written =
      envUpdateSmall.fileSize - ((2 : Nat) : Int) :=
  (C6_update_volume_transfer_length envUpdateSmall 2 0 rfl rfl rfl rfl rfl
    rfl).2.2 rfl (by norm_num) rfl

/-- C10: `UpdateVolume` with `size = 0` and `skipBytes` greater than the
image file's size (all native steps succeeding, nonnegative reserved
bytes): the computed transfer length `fileSize - skipBytes` is negative
(the subtraction is signed 64-bit arithmetic, no wrap), the no-space
guard does not reject the call, and the volume update is started with
that negative declared length. -/
theorem C10_negative_transfer_length (env : UpdateEnv) (skipBytes : Nat)
    (hex : env.fileExists = true) (hopen : env.ubiOpen = none)
    (hprobe : env.probeOk = true) (hdev : env.devInfoOk = true)
    (hvol : env.volInfoOk = true) (hstat : env.statOk = true)
    (hskip : env.fileSize < (skipBytes : Int)) (hrsvd : 0 ≤ env.rsvdBytes)
    (hvfd : env.volFdOk = true) (hifd : env.imageFdOk = true)
    (hlseek : env.lseekOk = true) (hstart : env.updateStartOk = true) :
    computeTransferLength 0 env.fileSize skipBytes < 0
  ∧ (UpdateVolume env skipBytes 0).result ≠
      .error .UPDATE_VOL__NO_SPACE_ERROR
  ∧ UpdateOp.updateStart (env.fileSize - (skipBytes : Int)) ∈
      (UpdateVolume env skipBytes 0).trace := by
  have hneg : env.fileSize - (skipBytes : Int) < 0 := by omega
  have hle : ¬ env.fileSize - (skipBytes : Int) > env.rsvdBytes := by omega
  rw [UpdateVolume_eq_fromBytes env skipBytes 0 hex hopen hprobe hdev hvol
    hstat]
  have hc : computeTransferLength 0 env.fileSize skipBytes =
      env.fileSize - (skipBytes : Int) := by
    simp [computeTransferLength]
  rw [hc]
  exact ⟨hneg,
    UpdateVolumeFromBytes_ne_no_space env skipBytes _ hle,
    UpdateVolumeFromBytes_updateStart_mem env skipBytes _ hle hvfd hifd
      hlseek hstart⟩

/-- Witness for C10 at a 4-byte image with `skipBytes = 10`: the update
starts with declared length -6. -/
theorem C10_negative_transfer_length_witness :
    computeTransferLength 0 envUpdateSkipPastEnd.fileSize 10 < 0
  ∧ (UpdateVolume envUpdateSkipPastEnd 10 0).result ≠
      .error .UPDATE_VOL__NO_SPACE_ERROR
  ∧ UpdateOp.updateStart (envUpdateSkipPastEnd.fileSize - ((10 : Nat) : Int)) ∈
      (UpdateVolume envUpdateSkipPastEnd 10 0).trace :=
  C10_negative_transfer_length envUpdateSkipPastEnd 10 rfl rfl rfl rfl rfl rfl
    (by norm_num [envUpdateSkipPastEnd]) (by norm_num [envUpdateSkipPastEnd])
    rfl rfl rfl rfl

lemma Inv_keep (s t : FormatState) (lo lo' : Nat) (h : Inv s lo)
    (hlo : lo ≤ lo')
    (ht1 : t.eb1 = s.eb1) (ht2 : t.eb2 = s.eb2) (ht3 : t.eraseOk = s.eraseOk)
    (htw : ∀ x, FlashOp.writeHdr x ∈ t.trace → FlashOp.writeHdr x ∈ s.trace)
    (htl : ∀ a b c d, FlashOp.layoutWrite a b c d ∈ t.trace →
      FlashOp.layoutWrite a b c d ∈ s.trace) :
    Inv t lo' := by
  obtain ⟨hres, hfill, hbound, hwrite, hlayout⟩ := h
  refine ⟨?_, ?_, ?_, ?_, ?_⟩
  · rw [reservedPairs, ht1, ht2, ht3]
    exact hres
  · intro hn
    rw [ht2]
    exact hfill (ht1 ▸ hn)
  · intro p hp
    exact lt_of_lt_of_le (hbound p (ht3 ▸ hp)) hlo
  · intro x hx
    obtain ⟨ha, hb, hc⟩ := hwrite x (htw x hx)
    refine ⟨lt_of_lt_of_le ha hlo, ?_, ?_⟩
    · rw [ht2]; exact hb
    · rw [ht3]; exact hc
  · intro a b c d hx
    exact hlayout a b c d (htl a b c d hx)

lemma Inv_mono (s : FormatState) (lo lo' : Nat) (h : Inv s lo)
    (hlo : lo ≤ lo') : Inv s lo' :=
  Inv_keep s s lo lo' h hlo rfl rfl rfl (fun _ hx => hx) (fun _ _ _ _ hx => hx)

lemma Inv_reserve_first (s t : FormatState) (eb : Nat) (ec : Int)
    (h : Inv s eb) (h1 : s.eb1 = none)
    (ht1 : t.eb1 = some (eb, ec)) (ht2 : t.eb2 = s.eb2)
    (ht3 : t.eraseOk = s.eraseOk ++ [(eb, ec)])
    (htr : ∀ op ∈ t.trace, op ∈ s.trace ∨ op = FlashOp.erase eb) :
    Inv t (eb + 1) := by
  obtain ⟨hres, hfill, hbound, hwrite, hlayout⟩ := h
  have h2 : s.eb2 = none := hfill h1
  have hnw : ∀ x, FlashOp.writeHdr x ∉ s.trace := by
    intro x hx
    exact (hwrite x hx).2.1 h2
  have hempty : s.eraseOk = [] := by
    have ht : s.eraseOk.take 2 = [] := by
      rw [← hres]; simp [reservedPairs, h1, h2]
    rcases List.take_eq_nil_iff.mp ht with h' | h'
    · omega
    · exact h'
  refine ⟨?_, ?_, ?_, ?_, ?_⟩
  · rw [reservedPairs, ht1, ht2, ht3, h2, hempty]
    simp
  · intro hn
    rw [ht1] at hn
    cases hn
  · intro p hp
    rw [ht3, hempty] at hp
    simp at hp
    simp [hp]
  · intro x hx
    rcases htr _ hx with hin | heq
    · exact absurd hin (hnw x)
    · cases heq
  · intro a b c d hx
    rcases htr _ hx with hin | heq
    · exact hlayout a b c d hin
    · cases heq

lemma Inv_reserve_second (s t : FormatState) (eb : Nat) (ec : Int)
    (p1 : Nat × Int) (h : Inv s eb) (h1 : s.eb1 = some p1) (h2 : s.eb2 = none)
    (ht1 : t.eb1 = s.eb1) (ht2 : t.eb2 = some (eb, ec))
    (ht3 : t.eraseOk = s.eraseOk ++ [(eb, ec)])
    (htr : ∀ op ∈ t.trace, op ∈ s.trace ∨ op = FlashOp.erase eb) :
    Inv t (eb + 1) := by
  obtain ⟨hres, hfill, hbound, hwrite, hlayout⟩ := h
  have hnw : ∀ x, FlashOp.writeHdr x ∉ s.trace := by
    intro x hx
    exact (hwrite x hx).2.1 h2
  have hone : s.eraseOk = [p1] := by
    have ht : s.eraseOk.take 2 = [p1] := by
      rw [← hres]; simp [reservedPairs, h1, h2]
    rcases hlist : s.eraseOk with _ | ⟨a, _ | ⟨b, tl⟩⟩ <;> rw [hlist] at ht
    · simp at ht
    · simp at ht
      simp [ht]
    · simp at ht
  refine ⟨?_, ?_, ?_, ?_, ?_⟩
  · rw [reservedPairs, ht1, ht2, ht3, h1, hone]
    simp
  · intro hn
    rw [ht1, h1] at hn
    cases hn
  · intro p hp
    rw [ht3, hone] at hp
    simp at hp
    rcases hp with rfl | rfl
    · have hp1 : p.1 < eb := hbound p (by simp [hone])
      omega
    · simp
  · intro x hx
    rcases htr _ hx with hin | heq
    · exact absurd hin (hnw x)
    · cases heq
  · intro a b c d hx
    rcases htr _ hx with hin | heq
    · exact hlayout a b c d hin
    · cases heq

lemma Inv_write_branch (s t : FormatState) (eb : Nat) (ec : Int)
    (h : Inv s eb) (h1 : s.eb1 ≠ none) (h2 : s.eb2 ≠ none)
    (ht1 : t.eb1 = s.eb1) (ht2 : t.eb2 = s.eb2)
    (ht3 : t.eraseOk = s.eraseOk ++ [(eb, ec)])
    (htr : ∀ op ∈ t.trace, op ∈ s.trace ∨ op = FlashOp.erase eb ∨
      op = FlashOp.writeHdr eb ∨ op = FlashOp.torture eb ∨
      op = FlashOp.markBad eb) :
    Inv t (eb + 1) := by
  obtain ⟨hres, hfill, hbound, hwrite, hlayout⟩ := h
  obtain ⟨q1, hq1⟩ := Option.ne_none_iff_exists'.mp h1
  obtain ⟨q2, hq2⟩ := Option.ne_none_iff_exists'.mp h2
  have hlen : 2 ≤ s.eraseOk.length := by
    have hlg := congrArg List.length hres
    simp only [reservedPairs, hq1, hq2, List.length_append,
      List.length_take] at hlg
    simp at hlg
    omega
  have htake : (s.eraseOk ++ [(eb, ec)]).take 2 = s.eraseOk.take 2 :=
    List.take_append_of_le_length hlen
  have htk : ∀ p ∈ s.eraseOk.take 2, p.1 < eb := by
    intro p hp
    exact hbound p (List.take_subset 2 s.eraseOk hp)
  refine ⟨?_, ?_, ?_, ?_, ?_⟩
  · rw [reservedPairs, ht1, ht2, ht3, htake]
    exact hres
  · intro hn
    rw [ht1, hq1] at hn
    cases hn
  · intro p hp
    rw [ht3] at hp
    simp only [List.mem_append] at hp
    rcases hp with hp | hp
    · exact lt_of_lt_of_le (hbound p hp) (by omega)
    · simp at hp
      simp [hp]
  · intro x hx
    rcases htr _ hx with hin | heq | heq | heq | heq
    · obtain ⟨ha, _, hc⟩ := hwrite x hin
      refine ⟨by omega, by rw [ht2]; exact h2, ?_⟩
      rw [ht3, htake]
      exact hc
    · cases heq
    · have hxeq : x = eb := by
        cases heq
        rfl
      subst hxeq
      refine ⟨by omega, by rw [ht2]; exact h2, ?_⟩
      rw [ht3, htake]
      intro p hp
      have := htk p hp
      omega
    · cases heq
    · cases heq
  · intro a b c d hx
    rcases htr _ hx with hin | heq | heq | heq | heq
    · exact hlayout a b c d hin
    · cases heq
    · cases heq
    · cases heq
    · cases heq

lemma MarkBadBlocks_inv (env : FormatEnv) (s : FormatState) (eb lo : Nat)
    (h : Inv s lo) : Inv (resState (MarkBadBlocks env s eb)) lo := by
  unfold MarkBadBlocks
  by_cases hbb : env.bbAllowed = false
  · simp only [hbb, if_true, resState]
    exact h
  · simp only [hbb, if_false]
    by_cases hmf : env.markBadFails eb
    · simp only [hmf, if_true, resState]
      refine Inv_keep s _ lo lo h le_rfl rfl rfl rfl ?_ ?_
      · intro x hx
        simpa using hx
      · intro a b c d hx
        simpa using hx
    · simp only [hmf, if_false]
      cases hcb : ConsecutiveBadBlocksCheck s.cbb (eb : Int) with
      | mk res cbb' =>
        cases res with
        | error e =>
          simp only [hcb, resState]
          refine Inv_keep s _ lo lo h le_rfl rfl rfl rfl ?_ ?_
          · intro x hx
            simpa using hx
          · intro a b c d hx
            simpa using hx
        | ok u =>
          simp only [hcb, resState]
          refine Inv_keep s _ lo lo h le_rfl rfl rfl rfl ?_ ?_
          · intro x hx
            simpa using hx
          · intro a b c d hx
            simpa using hx

lemma FormatExecStep_inv (env : FormatEnv) (attr : FormatAttr) (meanEc : Int)
    (s : FormatState) (eb : Nat) (h : Inv s eb) :
    Inv (resState (FormatExecStep env attr meanEc s eb)) (eb + 1) := by
  have hE : Inv { s with trace := s.trace ++ [FlashOp.erase eb] } (eb + 1) := by
    refine Inv_keep s _ eb (eb + 1) h (by omega) rfl rfl rfl ?_ ?_
    · intro x hx
      simpa using hx
    · intro a b c d hx
      simpa using hx
  unfold FormatExecStep
  by_cases hbad : s.ecTab eb = .ebBad
  · rw [if_pos hbad]
    exact Inv_mono s eb (eb + 1) h (by omega)
  · rw [if_neg hbad]
    cases herr : env.eraseErrno eb with
    | some e =>
      simp only [herr]
      by_cases heio : e ≠ EIO
      · rw [if_pos heio]
        simpa only [resState] using hE
      · rw [if_neg heio]
        have hmb := MarkBadBlocks_inv env
          { s with trace := s.trace ++ [FlashOp.erase eb] } eb (eb + 1) hE
        cases hres2 : MarkBadBlocks env
            { s with trace := s.trace ++ [FlashOp.erase eb] } eb with
        | error p =>
          obtain ⟨c, s'⟩ := p
          rw [hres2] at hmb
          simp only [hres2, resState]
          simpa [resState] using hmb
        | ok s' =>
          rw [hres2] at hmb
          simp only [hres2, resState]
          simpa [resState] using hmb
    | none =>
      simp only [herr]
      by_cases h1 : s.eb1 = none
      · rw [if_pos h1]
        refine Inv_reserve_first s _ eb _ h h1 rfl rfl rfl ?_
        intro op hop
        simpa [resState] using hop
      · rw [if_neg h1]
        by_cases h2 : s.eb2 = none
        · rw [if_pos h2]
          obtain ⟨p1, hp1⟩ := Option.ne_none_iff_exists'.mp h1
          refine Inv_reserve_second s _ eb _ p1 h hp1 h2 rfl rfl rfl ?_
          intro op hop
          simpa [resState] using hop
        · rw [if_neg h2]
          cases hw : env.writeErrno eb with
          | none =>
            simp only [hw, resState]
            refine Inv_write_branch s _ eb _ h h1 h2 rfl rfl rfl ?_
            intro op hop
            simp [resState] at hop
            tauto
          | some e2 =>
            simp only [hw]
            by_cases habort : e2 ≠ EIO ∧ attr.subpage_size ≠ env.minIoSize
            · rw [if_pos habort]
              simp only [resState]
              refine Inv_write_branch s _ eb _ h h1 h2 rfl rfl rfl ?_
              intro op hop
              simp [resState] at hop
              tauto
            · rw [if_neg habort]
              have hT : Inv { s with
                  trace := ((s.trace ++ [FlashOp.erase eb]) ++
                    [FlashOp.writeHdr eb]) ++ [FlashOp.torture eb],
                  eraseOk := s.eraseOk ++
                    [(eb, computeEc attr meanEc (s.ecTab eb))] } (eb + 1) := by
                refine Inv_write_branch s _ eb _ h h1 h2 rfl rfl rfl ?_
                intro op hop
                simp at hop
                tauto
              by_cases ht : env.tortureFails eb
              · simp only [ht, if_true]
                have hmb := MarkBadBlocks_inv env _ eb (eb + 1) hT
                cases hres2 : MarkBadBlocks env { s with
                    trace := ((s.trace ++ [FlashOp.erase eb]) ++
                      [FlashOp.writeHdr eb]) ++ [FlashOp.torture eb],
                    eraseOk := s.eraseOk ++
                      [(eb, computeEc attr meanEc (s.ecTab eb))] } eb with
                | error p =>
                  obtain ⟨c, s'⟩ := p
                  rw [hres2] at hmb
                  simp only [hres2, resState]
                  simpa [resState] using hmb
                | ok s' =>
                  rw [hres2] at hmb
                  simp only [hres2, resState]
                  simpa [resState] using hmb
              · simp only [ht, if_false, resState]
                exact hT

lemma FormatExecLoop_inv (env : FormatEnv) (attr : FormatAttr) (meanEc : Int) :
    ∀ (n lo : Nat) (s : FormatState), Inv s lo →
      ∃ m, Inv (resState (FormatExecLoop env attr meanEc
        (List.range' lo n) s)) m := by
  intro n
  induction n with
  | zero =>
    intro lo s h
    exact ⟨lo, h⟩
  | succ k ih =>
    intro lo s h
    rw [List.range'_succ lo k 1]
    have hstep := FormatExecStep_inv env attr meanEc s lo h
    simp only [FormatExecLoop]
    cases hres : FormatExecStep env attr meanEc s lo with
    | error p =>
      obtain ⟨c, s'⟩ := p
      rw [hres] at hstep
      exact ⟨lo + 1, hstep⟩
    | ok s1 =>
      rw [hres] at hstep
      simp only [resState] at hstep
      exact ih (lo + 1) s1 hstep

lemma Inv_no_hdr_on_reserved (s : FormatState) (lo : Nat) (h : Inv s lo) :
    ∀ p ∈ s.eraseOk.take 2, FlashOp.writeHdr p.1 ∉ s.trace := by
  intro p hp hmem
  exact (h.2.2.2.1 p.1 hmem).2.2 p hp rfl

lemma Inv_take2_of_reserved (s : FormatState) (lo : Nat) (h : Inv s lo)
    (p1 p2 : Nat × Int) (h1 : s.eb1 = some p1) (h2 : s.eb2 = some p2) :
    s.eraseOk.take 2 = [p1, p2] ∧ 2 ≤ s.eraseOk.length := by
  have hres := h.1
  rw [reservedPairs, h1, h2] at hres
  simp only [Option.toList_some, List.singleton_append] at hres
  refine ⟨hres.symm, ?_⟩
  have hlg := congrArg List.length hres
  simp only [List.length_cons, List.length_singleton, List.length_take] at hlg
  omega

/-- C5: handling of a failed `mtd_erase` in the `FormatExec` loop, for a
block the scan did not already mark bad.  If the native error is not
`EIO`, the whole loop aborts at once with the failed-to-erase code and
the only flash operation issued for this or any later block is the one
failed erase.  If the error is `EIO` and the mark-bad path succeeds
(marking supported, native mark call succeeds, guard below its limit),
the block is marked bad — bad count incremented, its scan erase-counter
entry set to the bad marker — and the loop continues with the remaining
blocks. -/
theorem C5_erase_failure_handling (env : FormatEnv) (attr : FormatAttr)
    (meanEc : Int) (s : FormatState) (eb : Nat) (rest : List Nat) (e : Nat)
    (hnotbad : s.ecTab eb ≠ .ebBad) (herr : env.eraseErrno eb = some e) :
    (e ≠ EIO →
      FormatExecLoop env attr meanEc (eb :: rest) s =
        .error (.FORMAT__FAILED_TO_ERASE_ERASEBLOCK_ERROR,
          { s with trace := s.trace ++ [FlashOp.erase eb] }))
  ∧ (e = EIO → env.bbAllowed = true → env.markBadFails eb = false →
      (ConsecutiveBadBlocksCheck s.cbb (eb : Int)).1 = .ok () →
      FormatExecLoop env attr meanEc (eb :: rest) s =
        FormatExecLoop env attr meanEc rest
          { s with
            trace := (s.trace ++ [FlashOp.erase eb]) ++ [FlashOp.markBad eb],
            badCnt := s.badCnt + 1,
            ecTab := Function.update s.ecTab eb ECEntry.ebBad,
            cbb := (ConsecutiveBadBlocksCheck s.cbb (eb : Int)).2 }) := by
  constructor
  · intro hne
    have hstep : FormatExecStep env attr meanEc s eb =
        .error (.FORMAT__FAILED_TO_ERASE_ERASEBLOCK_ERROR,
          { s with trace := s.trace ++ [FlashOp.erase eb] }) := by
      unfold FormatExecStep
      rw [if_neg hnotbad]
      simp only [herr]
      rw [if_pos hne]
    simp only [FormatExecLoop, hstep]
  · intro heio hbb hmf hok
    subst heio
    have hmb : MarkBadBlocks env
        { s with trace := s.trace ++ [FlashOp.erase eb] } eb =
        .ok { s with
            trace := (s.trace ++ [FlashOp.erase eb]) ++ [FlashOp.markBad eb],
            badCnt := s.badCnt + 1,
            ecTab := Function.update s.ecTab eb ECEntry.ebBad,
            cbb := (ConsecutiveBadBlocksCheck s.cbb (eb : Int)).2 } := by
      cases hcb : ConsecutiveBadBlocksCheck s.cbb (eb : Int) with
      | mk res cbb2 =>
        cases res with
        | error e2 =>
          rw [hcb] at hok
          simp at hok
        | ok u =>
          simp only [MarkBadBlocks, hbb, hmf]
          simp only [Bool.true_eq_false, if_false, Bool.false_eq_true]
          rw [hcb]
    have hstep : FormatExecStep env attr meanEc s eb =
        .ok { s with
            trace := (s.trace ++ [FlashOp.erase eb]) ++ [FlashOp.markBad eb],
            badCnt := s.badCnt + 1,
            ecTab := Function.update s.ecTab eb ECEntry.ebBad,
            cbb := (ConsecutiveBadBlocksCheck s.cbb (eb : Int)).2 } := by
      unfold FormatExecStep
      rw [if_neg hnotbad]
      simp only [herr]
      rw [if_neg (by simp : ¬ ( EIO ≠ EIO))]
      simp only [hmb]
    simp only [FormatExecLoop, hstep]

/-- Witness for C5 in an environment where erasing block 0 fails with
`EIO` and the mark-bad path succeeds: the loop marks the block bad and
continues. -/
theorem C5_erase_failure_handling_witness :
    FormatExecLoop envEioErase {} 0 [0] stateFreshGuard =
      FormatExecLoop envEioErase {} 0 []
        { stateFreshGuard with
          trace := (stateFreshGuard.trace ++ [FlashOp.erase 0]) ++ [FlashOp.markBad 0],
          badCnt := stateFreshGuard.badCnt + 1,
          ecTab := Function.update stateFreshGuard.ecTab 0 ECEntry.ebBad,
          cbb := (ConsecutiveBadBlocksCheck stateFreshGuard.cbb ((0 : Nat) : Int)).2 } :=
  (C5_erase_failure_handling envEioErase {} 0 stateFreshGuard 0 [] 5
    (by decide) rfl).2 rfl rfl rfl rfl

/-- C4: in every `FormatExec` run, the reservations `eb1`/`eb2` are
exactly the first two successfully erased blocks with the erase counters
computed for them; no erase-counter header is ever written to a reserved
block; on success the layout volume is written with exactly those two
blocks and counters; and when the loop completes having reserved fewer
than two blocks, `FormatExec` fails with the
no-eraseblocks-for-volume-table code and its trace holds no layout-volume
write. -/
theorem C4_volume_table_reservation (env : FormatEnv) (attr : FormatAttr)
    (meanEc : Int) (ecTab0 : Nat → ECEntry) (cbb0 : CbbState)
    (startEb badCnt0 : Nat) :
    (∀ s, FormatExec env attr meanEc ecTab0 cbb0 startEb badCnt0 = .ok s →
        reservedPairs s = s.eraseOk.take 2
      ∧ 2 ≤ s.eraseOk.length
      ∧ (∀ p ∈ s.eraseOk.take 2, FlashOp.writeHdr p.1 ∉ s.trace)
      ∧ ∃ q1 q2, s.eraseOk.take 2 = [q1, q2]
          ∧ FlashOp.layoutWrite q1.1 q1.2 q2.1 q2.2 ∈ s.trace)
  ∧ (∀ c s, FormatExec env attr meanEc ecTab0 cbb0 startEb badCnt0 =
        .error (c, s) →
        reservedPairs s = s.eraseOk.take 2
      ∧ (∀ p ∈ s.eraseOk.take 2, FlashOp.writeHdr p.1 ∉ s.trace))
  ∧ (∀ s, FormatExecLoop env attr meanEc
        (List.range' startEb (env.ebCnt - startEb))
        (formatInitState ecTab0 cbb0 badCnt0) = .ok s →
      s.eraseOk.length < 2 →
        FormatExec env attr meanEc ecTab0 cbb0 startEb badCnt0 =
          .error (.FORMAT__NO_ERASEBLOCKS_FOR_VOLUME_TABLE_ERROR, s)
      ∧ (∀ a b c d, FlashOp.layoutWrite a b c d ∉ s.trace)) := by
  have hinit : Inv (formatInitState ecTab0 cbb0 badCnt0) startEb := by
    refine ⟨rfl, fun _ => rfl, ?_, ?_, ?_⟩
    · intro p hp
      simp [formatInitState] at hp
    · intro x hx
      simp [formatInitState] at hx
    · intro a b c d hx
      simp [formatInitState] at hx
  obtain ⟨m, hm⟩ := FormatExecLoop_inv env attr meanEc (env.ebCnt - startEb)
    startEb _ hinit
  cases hloop : FormatExecLoop env attr meanEc
      (List.range' startEb (env.ebCnt - startEb))
      (formatInitState ecTab0 cbb0 badCnt0) with
  | error p =>
    obtain ⟨c0, s0⟩ := p
    rw [hloop] at hm
    simp only [resState] at hm
    refine ⟨?_, ?_, ?_⟩
    · intro s hs
      simp only [FormatExec, hloop] at hs
      exact Except.noConfusion hs
    · intro c s hs
      simp only [FormatExec, hloop, Except.error.injEq, Prod.mk.injEq] at hs
      obtain ⟨_, hs2⟩ := hs
      subst hs2
      exact ⟨hm.1, Inv_no_hdr_on_reserved s0 m hm⟩
    · intro s hs
      exact Except.noConfusion hs
  | ok sl =>
    rw [hloop] at hm
    simp only [resState] at hm
    cases he1 : sl.eb1 with
    | none =>
      have hfe : FormatExec env attr meanEc ecTab0 cbb0 startEb badCnt0 =
          .error (.FORMAT__NO_ERASEBLOCKS_FOR_VOLUME_TABLE_ERROR, sl) := by
        simp only [FormatExec, hloop, he1]
      refine ⟨?_, ?_, ?_⟩
      · intro s hs
        rw [hfe] at hs
        cases hs
      · intro c s hs
        rw [hfe] at hs
        simp only [Except.error.injEq, Prod.mk.injEq] at hs
        obtain ⟨_, hs2⟩ := hs
        subst hs2
        exact ⟨hm.1, Inv_no_hdr_on_reserved sl m hm⟩
      · intro s hs _
        injection hs with hs'
        subst hs'
        exact ⟨hfe, fun a b c d => hm.2.2.2.2 a b c d⟩
    | some q1 =>
      obtain ⟨e1, c1⟩ := q1
      cases he2 : sl.eb2 with
      | none =>
        have hfe : FormatExec env attr meanEc ecTab0 cbb0 startEb badCnt0 =
            .error (.FORMAT__NO_ERASEBLOCKS_FOR_VOLUME_TABLE_ERROR, sl) := by
          simp only [FormatExec, hloop, he1, he2]
        refine ⟨?_, ?_, ?_⟩
        · intro s hs
          rw [hfe] at hs
          cases hs
        · intro c s hs
          rw [hfe] at hs
          simp only [Except.error.injEq, Prod.mk.injEq] at hs
          obtain ⟨_, hs2⟩ := hs
          subst hs2
          exact ⟨hm.1, Inv_no_hdr_on_reserved sl m hm⟩
        · intro s hs _
          injection hs with hs'
          subst hs'
          exact ⟨hfe, fun a b c d => hm.2.2.2.2 a b c d⟩
      | some q2 =>
        obtain ⟨e2, c2⟩ := q2
        obtain ⟨htk, hlen2⟩ := Inv_take2_of_reserved sl m hm (e1, c1) (e2, c2)
          he1 he2
        have hlenloop : ∀ s,
            (Except.ok sl :
              Except (UbiErrorCode × FormatState) FormatState) = .ok s →
            s.eraseOk.length < 2 →
            FormatExec env attr meanEc ecTab0 cbb0 startEb badCnt0 =
              .error (.FORMAT__NO_ERASEBLOCKS_FOR_VOLUME_TABLE_ERROR, s)
            ∧ (∀ a b c d, FlashOp.layoutWrite a b c d ∉ s.trace) := by
          intro s hs hlen
          injection hs with hs'
          subst hs'
          omega
        by_cases hv : env.vtblOk = false
        · have hfe : FormatExec env attr meanEc ecTab0 cbb0 startEb badCnt0 =
              .error (.FORMAT__UBIGEN_CREATE_EMPTY_VTBL_ERROR, sl) := by
            simp only [FormatExec, hloop, he1, he2, hv, if_true]
          refine ⟨?_, ?_, hlenloop⟩
          · intro s hs
            rw [hfe] at hs
            cases hs
          · intro c s hs
            rw [hfe] at hs
            simp only [Except.error.injEq, Prod.mk.injEq] at hs
            obtain ⟨_, hs2⟩ := hs
            subst hs2
            exact ⟨hm.1, Inv_no_hdr_on_reserved sl m hm⟩
        · have hv' : env.vtblOk = true := by
            cases h' : env.vtblOk
            · exact absurd h' hv
            · rfl
          by_cases hlw : env.layoutWriteOk = false
          · have hfe : FormatExec env attr meanEc ecTab0 cbb0
                startEb badCnt0 =
                .error (.FORMAT__CANNOT_WRITE_LAYOUT_VOLUME,
                  { sl with trace := sl.trace ++
                    [FlashOp.layoutWrite e1 c1 e2 c2] }) := by
              simp only [FormatExec, hloop, he1, he2, hv', hlw]
              simp only [Bool.true_eq_false, if_false, if_true]
            refine ⟨?_, ?_, hlenloop⟩
            · intro s hs
              rw [hfe] at hs
              cases hs
            · intro c s hs
              rw [hfe] at hs
              simp only [Except.error.injEq, Prod.mk.injEq] at hs
              obtain ⟨_, hs2⟩ := hs
              subst hs2
              refine ⟨hm.1, ?_⟩
              intro p hp hmem
              simp only [List.mem_append] at hmem
              rcases hmem with hmem | hmem
              · exact Inv_no_hdr_on_reserved sl m hm p hp hmem
              · simp at hmem
          · have hlw' : env.layoutWriteOk = true := by
              cases h' : env.layoutWriteOk
              · exact absurd h' hlw
              · rfl
            have hfe : FormatExec env attr meanEc ecTab0 cbb0
                startEb badCnt0 =
                .ok { sl with trace := sl.trace ++
                  [FlashOp.layoutWrite e1 c1 e2 c2] } := by
              simp only [FormatExec, hloop, he1, he2, hv', hlw']
              simp only [Bool.true_eq_false, if_false]
            refine ⟨?_, ?_, hlenloop⟩
            · intro s hs
              rw [hfe] at hs
              injection hs with hs'
              subst hs'
              refine ⟨hm.1, hlen2, ?_, ?_⟩
              · intro p hp hmem
                simp only [List.mem_append] at hmem
                rcases hmem with hmem | hmem
                · exact Inv_no_hdr_on_reserved sl m hm p hp hmem
                · simp at hmem
              · exact ⟨(e1, c1), (e2, c2), htk, by simp⟩
            · intro c s hs
              rw [hfe] at hs
              cases hs

/-- Witness for C4's too-few-reservations part: with no blocks at all
the loop reserves nothing and `FormatExec` fails with the
no-eraseblocks-for-volume-table code, writing no layout volume. -/
theorem C4_volume_table_reservation_witness :
    FormatExec envNoBlocks {} 0 (fun _ => ECEntry.valid 0) cbbFresh 0 0 =
      .error (.FORMAT__NO_ERASEBLOCKS_FOR_VOLUME_TABLE_ERROR,
        formatInitState (fun _ => ECEntry.valid 0) cbbFresh 0)
  ∧ (∀ a b c d, FlashOp.layoutWrite a b c d ∉
      (formatInitState (fun _ => ECEntry.valid 0) cbbFresh 0).trace) :=
  (C4_volume_table_reservation envNoBlocks {} 0 (fun _ => ECEntry.valid 0)
    cbbFresh 0 0).2.2
    (formatInitState (fun _ => ECEntry.valid 0) cbbFresh 0) rfl (by decide)

end UbiModel
